import Mathlib

/-!
Shallow embedding of the FinancialChatbot core (src/chatbot/core.py) of the
FiscalAgent repository, together with theorems settling the frozen claims
about its specification.

Modelling conventions
* pandas cells are `Option Rat`: `none` is a missing value (NaN produced by
  `pd.to_numeric(..., errors="coerce")` or an empty cell); `some q` is a
  finite numeric value.  CSV-loaded numbers are exact decimals, so `Rat` is
  faithful for all the arithmetic the core performs.
* A dataframe carries the list of normalized column names actually present
  in the CSV source (`self.df.columns` after `__init__`).  Every pandas
  column access is modelled by a membership test on that list; a failed
  access is the raised `KeyError`, modelled as `Except.error "KeyError"`.
  The `company` column is required (`__init__` reads it unconditionally),
  so constructed dataframes are assumed to have company data in the rows.
* Fallible operations return `Except String α`: `.error` models a raised
  pandas exception escaping the method, `.ok` a normal return; inside,
  Python `None` results are `Option.none`.
* String handling (`str.lower`, `in`, regex `\d`, `\w`, `\b`) is modelled
  over ASCII, which covers the keyword/year matching the core performs;
  Python's Unicode-aware classes are out of scope.
* The rapidfuzz company matching (`_best_company_match` composed with the
  `re.search(r"for\s+(...)")` extraction, core.py lines 157-160) is an
  external similarity-scoring capability per the spec's design notes; it is
  modelled as an explicit function parameter `fz` from the original input
  text to an optional matched company.
* `trend_plot`'s matplotlib rendering and file write are external effects;
  the model keeps its control flow and the returned relative path, taking
  the timestamp `int(datetime.utcnow().timestamp())` as a parameter `ts`.
* Number formatting inside reply strings models CPython's decimal
  formatting of exact rationals; the binary-double shortest-repr detail of
  CPython floats is not modelled (no claim depends on rendered digits).
-/

/-- Decidable equality for `Except`, needed to evaluate the embedded
operations on concrete inputs. -/
instance {ε α : Type} [DecidableEq ε] [DecidableEq α] : DecidableEq (Except ε α)
  | .error e, .error f =>
    if h : e = f then .isTrue (by rw [h]) else .isFalse (by simp [h])
  | .error _, .ok _ => .isFalse (by simp)
  | .ok _, .error _ => .isFalse (by simp)
  | .ok a, .ok b =>
    if h : a = b then .isTrue (by rw [h]) else .isFalse (by simp [h])

/-- One normalized CSV row of the financial dataset.  Columns are those the
class docstring declares (core.py lines 16-20), with names normalized by
`__init__` (strip, lowercase, spaces to underscores).  A field of a row whose
column is absent from the dataframe is never read by the model: every column
access first checks membership in `DataFrame.cols`. -/
structure Row where
  company : Option String
  year : Option Rat
  total_revenue : Option Rat
  net_income : Option Rat
  total_assets : Option Rat
  total_liabilities : Option Rat
  cash_flow_from_operating_activities : Option Rat
deriving DecidableEq

/-- The loaded dataframe: the normalized column names present in the CSV
source and the parsed rows (core.py lines 22-38). -/
structure DataFrame where
  cols : List String
  rows : List Row
deriving DecidableEq

/-- The declared numeric columns of the schema (`num_cols` in `__init__`,
core.py lines 28-35). -/
def numericCols : List String :=
  ["year", "total_revenue", "net_income", "total_assets", "total_liabilities",
   "cash_flow_from_operating_activities"]

/-- Read the named numeric column of a row (pandas `row[c]` for the declared
numeric columns). -/
def Row.getNum (r : Row) (c : String) : Option Rat :=
  if c = "year" then r.year
  else if c = "total_revenue" then r.total_revenue
  else if c = "net_income" then r.net_income
  else if c = "total_assets" then r.total_assets
  else if c = "total_liabilities" then r.total_liabilities
  else if c = "cash_flow_from_operating_activities" then
    r.cash_flow_from_operating_activities
  else none

/-- ASCII `str.lower` on one character. -/
def lowerChar (c : Char) : Char :=
  if 'A' ≤ c ∧ c ≤ 'Z' then Char.ofNat (c.toNat + 32) else c

/-- ASCII model of Python `str.lower()`. -/
def pyLower (s : String) : String := String.mk (s.data.map lowerChar)

/-- First list is a prefix of the second (character lists). -/
def prefixCh : List Char → List Char → Bool
  | [], _ => true
  | _ :: _, [] => false
  | a :: as, b :: bs => a == b && prefixCh as bs

/-- First list occurs contiguously inside the second. -/
def inCh : List Char → List Char → Bool
  | n, [] => prefixCh n []
  | n, c :: rest => prefixCh n (c :: rest) || inCh n rest

/-- Python `needle in hay` on strings. -/
def pyIn (needle hay : String) : Bool := inCh needle.data hay.data

/-- Python truthiness of an `Optional[int]` (`if year:` treats both `None`
and `0` as absent). -/
def truthyYear : Option Int → Bool
  | none => false
  | some y => y != 0

/-- Python truthiness of an optional string (`if not company:` fires on both
`None` and the empty string). -/
def truthyStr : Option String → Bool
  | none => false
  | some s => s != ""

/-- Case-insensitive company match of one row, as in
`self.df["company"].str.lower() == company.lower()`: a missing company cell
(NaN) never matches. -/
def matchesCompany (rc : Option String) (c : String) : Bool :=
  match rc with
  | some s => pyLower s == pyLower c
  | none => false

/-- Rows of the dataframe whose company matches case-insensitively. -/
def companyRows (df : DataFrame) (company : String) : List Row :=
  df.rows.filter (fun r => matchesCompany r.company company)

/-- The sorted list of distinct company names,
`sorted(self.df["company"].dropna().unique().tolist())` (core.py line 41):
missing cells dropped, first-occurrence deduplication, then ascending sort. -/
def companies (df : DataFrame) : List String :=
  List.insertionSort (· ≤ ·) (df.rows.filterMap Row.company).eraseDups

/-- ASCII model of the regex word class `\w` used by the `\b` boundaries of
`_parse_years` (Python `re` is Unicode-aware; inputs here are ASCII). -/
def isWordC (c : Char) : Bool := c.isAlphanum || c == '_'

/-- The first four characters spell a year `(?:19|20)\d{2}`. -/
def yearDigits : List Char → Bool
  | c0 :: c1 :: c2 :: c3 :: _ =>
    ((c0 == '1' && c1 == '9') || (c0 == '2' && c1 == '0')) &&
      c2.isDigit && c3.isDigit
  | _ => false

/-- The trailing `\b` of the year pattern: after four characters the list
ends or continues with a non-word character. -/
def tailBoundary : List Char → Bool
  | _ :: _ :: _ :: _ :: rest =>
    match rest with
    | [] => true
    | r :: _ => !isWordC r
  | _ => false

/-- The year pattern `(?:19|20)\d{2}\b` matches at the head of the list. -/
def yearAt (l : List Char) : Bool := yearDigits l && tailBoundary l

/-- Numeric value of an ASCII digit character. -/
def digitVal (c : Char) : Int := (c.toNat : Int) - 48

/-- `int(y)` for the four digit characters at the head of the list. -/
def yearNum : List Char → Int
  | c0 :: c1 :: c2 :: c3 :: _ =>
    1000 * digitVal c0 + 100 * digitVal c1 + 10 * digitVal c2 + digitVal c3
  | _ => 0

/-- Left-to-right non-overlapping scan of `re.findall` for the pattern
`\b(?:19|20)\d{2}\b`.  `prevW` records whether the previous character was a
word character (the leading `\b`; the pattern starts with a digit, so the
boundary holds exactly when the previous character is not a word character
or the match is at the start).  After a match the scan resumes after its
four characters.  The fuel argument bounds the number of steps (each step
consumes at least one character), keeping the recursion structural. -/
def scanYearsF : Nat → List Char → Bool → List Int
  | 0, _, _ => []
  | _ + 1, [], _ => []
  | fuel + 1, c :: rest, prevW =>
    if !prevW && yearAt (c :: rest) then
      yearNum (c :: rest) :: scanYearsF fuel (rest.drop 3) true
    else scanYearsF fuel rest (isWordC c)

/-- `_parse_years` (core.py lines 51-56):
`[int(y) for y in re.findall(r"\b(?:19|20)\d{2}\b", text)]`. -/
def parse_years (text : String) : List Int :=
  scanYearsF text.data.length text.data false

/-- Wrapped Python float values produced by `_safe_pct_change`: a finite
value, `float("inf")`, or NaN (arising when a NaN operand flows through the
arithmetic). -/
inductive PctVal
  | fin (q : Rat)
  | posInf
  | nan
deriving DecidableEq

/-- `_safe_pct_change` (core.py lines 58-62) on pandas values, where `none`
is NaN.  Python semantics at NaN: `NaN == 0` is False and `NaN != 0` is
True, and arithmetic involving NaN yields NaN; hence `old = NaN` falls into
the formula branch and yields NaN, while `old = 0, new = NaN` yields
`float("inf")`. -/
def safe_pct_change : Option Rat → Option Rat → PctVal
  | some o, some n =>
    if o = 0 then (if n ≠ 0 then .posInf else .fin 0)
    else .fin ((n - o) / |o| * 100)
  | some o, none => if o = 0 then .posInf else .nan
  | none, _ => .nan

/-- The rows selected by `total_revenue` and `compare_companies`: the
case-insensitive company filter, then — only when the year argument is
truthy (`if year:`, so `None` and `0` both skip the filter) — the exact
year filter `df["year"] == year`. -/
def matchedRows (df : DataFrame) (company : String) (year : Option Int) : List Row :=
  match year with
  | some y =>
    if y ≠ 0 then
      (companyRows df company).filter (fun r => decide (r.year = some (y : Rat)))
    else companyRows df company
  | none => companyRows df company

/-- `total_revenue` (core.py lines 66-70).  The year filter reads
`df["year"]` only when the year argument is truthy, raising KeyError if
that column is absent; after the emptiness check, `df["total_revenue"]` is
read, raising KeyError if that column is absent.  `.sum()` skips missing
values (an empty or all-NaN selection sums to 0.0). -/
def total_revenue (df : DataFrame) (company : String) (year : Option Int := none) :
    Except String (Option Rat) :=
  if truthyYear year ∧ "year" ∉ df.cols then .error "KeyError"
  else
    let m := matchedRows df company year
    if m.isEmpty then .ok none
    else if "total_revenue" ∈ df.cols then
      .ok (some ((m.filterMap Row.total_revenue).sum))
    else .error "KeyError"

/-- The company's rows with the exact year, as selected by
`df.loc[df["year"] == year, "net_income"]` (no truthiness here: the
comparison is applied directly, and a NaN year never equals an int). -/
def yearRows (df : DataFrame) (company : String) (y : Int) : List Row :=
  (companyRows df company).filter (fun r => decide (r.year = some (y : Rat)))

/-- Result dictionary of `net_income_change` (core.py lines 81-87). -/
structure NicResult where
  year1 : Int
  year2 : Int
  val1 : Option Rat
  val2 : Option Rat
  pct_change : PctVal
deriving DecidableEq

/-- `net_income_change` (core.py lines 72-87).  Both `.loc` selections read
the `year` and `net_income` columns before the emptiness checks, raising
KeyError when either column is absent; otherwise `None` if either year has
no row, else the first matching row's value for each year (`iloc[0]`,
possibly NaN) and the safe percent change. -/
def net_income_change (df : DataFrame) (company : String) (year1 year2 : Int) :
    Except String (Option NicResult) :=
  if "year" ∉ df.cols then .error "KeyError"
  else if "net_income" ∉ df.cols then .error "KeyError"
  else
    match (yearRows df company year1).head?, (yearRows df company year2).head? with
    | some r1, some r2 =>
      .ok (some { year1 := year1, year2 := year2,
                  val1 := r1.net_income, val2 := r2.net_income,
                  pct_change := safe_pct_change r1.net_income r2.net_income })
    | _, _ => .ok none

/-- Python float subtraction on pandas values (NaN-propagating). -/
def pySub : Option Rat → Option Rat → Option Rat
  | some a, some b => some (a - b)
  | _, _ => none

/-- Result dictionary of `compare_companies` (core.py lines 106-115). -/
structure CmpResult where
  company_a : String
  company_b : String
  metric : String
  year : Option Int
  a_val : Option Rat
  b_val : Option Rat
  diff : Option Rat
  pct_diff : PctVal
deriving DecidableEq

/-- `compare_companies` (core.py lines 89-115): metric lowercased then
checked against the two allowed keys; company filters; year filter only when
the year is truthy (reading `df["year"]`, KeyError if absent); `None` if
either side is empty; else the first row per side, `diff = a_val - b_val`
and `pct_diff = _safe_pct_change(b_val, a_val)` (the metric column is read
at this point, KeyError if absent). -/
def compare_companies (df : DataFrame) (company_a company_b metric : String)
    (year : Option Int := none) : Except String (Option CmpResult) :=
  let m := pyLower metric
  if m = "total_revenue" ∨ m = "net_income" then
    if truthyYear year ∧ "year" ∉ df.cols then .error "KeyError"
    else
      match (matchedRows df company_a year).head?, (matchedRows df company_b year).head? with
      | some ra, some rb =>
        if m ∈ df.cols then
          .ok (some { company_a := company_a, company_b := company_b,
                      metric := m, year := year,
                      a_val := ra.getNum m, b_val := rb.getNum m,
                      diff := pySub (ra.getNum m) (rb.getNum m),
                      pct_diff := safe_pct_change (rb.getNum m) (ra.getNum m) })
        else .error "KeyError"
      | _, _ => .ok none
  else .ok none

/-- Ordering of trend points by year, used to model
`.sort_values("year")`. -/
def yearLe : Rat × Rat → Rat × Rat → Prop := fun p q => p.1 ≤ q.1

instance : DecidableRel yearLe := fun p q => inferInstanceAs (Decidable (p.1 ≤ q.1))

instance : IsTotal (Rat × Rat) yearLe := ⟨fun a b => le_total a.1 b.1⟩

instance : IsTrans (Rat × Rat) yearLe := ⟨fun _ _ _ h1 h2 => le_trans h1 h2⟩

/-- The company's (year, metric value) points with both cells present, as
produced by the company filter plus `.dropna(subset=[metric, "year"])`
(core.py lines 125-128), before sorting. -/
def trend_pairs (df : DataFrame) (company m : String) : List (Rat × Rat) :=
  (companyRows df company).filterMap fun r =>
    match r.year, r.getNum m with
    | some y, some v => some (y, v)
    | _, _ => none

/-- The ordered series underlying `trend_plot` (core.py lines 117-131):
metric lowercased and checked against the dataframe columns (`None` if
unknown); `.dropna(subset=[metric, "year"])` reads the `year` column,
raising KeyError if absent; the surviving points sorted ascending by year
(`sort_values("year")`; pandas does not guarantee a stable order among
equal years, modelled here with insertion sort); `None` if nothing
remains. -/
def trend_series (df : DataFrame) (company metric : String) :
    Except String (Option (List (Rat × Rat))) :=
  let m := pyLower metric
  if m ∈ df.cols then
    if "year" ∉ df.cols then .error "KeyError"
    else
      let sorted := List.insertionSort yearLe (trend_pairs df company m)
      .ok (if sorted.isEmpty then none else some sorted)
  else .ok none

/-- The relative PNG path `trend_plot` returns (core.py lines 138-143),
with the wall-clock timestamp taken as the parameter `ts`. -/
def plotPath (company m : String) (ts : Nat) : String :=
  "/static/plots/" ++ String.mk (company.data.map fun c => if c = ' ' then '_' else c) ++
    "_" ++ m ++ "_" ++ toString ts ++ ".png"

/-- `trend_plot` (core.py lines 117-143): the series computation followed by
the delegated chart rendering, returning the saved file's relative path. -/
def trend_plot (df : DataFrame) (company metric : String) (ts : Nat) :
    Except String (Option String) :=
  (trend_series df company metric).map fun o =>
    o.map fun _ => plotPath company (pyLower metric) ts

/-- ASCII digit character for a value below ten. -/
def digitChar (d : Nat) : Char := Char.ofNat (48 + d % 10)

/-- Insert a comma after every third character of a reversed digit list. -/
def commaRev : List Char → List Char
  | a :: b :: c :: d :: rest => a :: b :: c :: ',' :: commaRev (d :: rest)
  | l => l

/-- Decimal digits of a natural number with thousands separators. -/
def fmtNatComma (n : Nat) : String :=
  String.mk (commaRev (toString n).data.reverse).reverse

/-- Round to the nearest integer, ties to even — the rounding of Python
`format` (the model rounds the exact rational; CPython rounds the binary
double, which differs only on values that are not exactly representable,
never the case for the integral CSV data the claims exercise). -/
def roundHalfEven (q : Rat) : Int :=
  let f := ⌊q⌋
  if q - f < 1 / 2 then f
  else if 1 / 2 < q - f then f + 1
  else if f % 2 = 0 then f else f + 1

/-- Python `f"{val:,.0f}"`: thousands separators, no decimals. -/
def fmtMoney0 (q : Rat) : String :=
  if q < 0 then "-" ++ fmtNatComma (roundHalfEven (-q)).toNat
  else fmtNatComma (roundHalfEven q).toNat

/-- Fractional decimal digits of a rational in `[0, 1)`, stopping at a zero
remainder or after `fuel` digits (CSV decimals terminate well within the 17
digits a CPython float repr can need). -/
def fracDigitsAux : Nat → Rat → List Char
  | 0, _ => []
  | fuel + 1, r =>
    if r = 0 then []
    else
      let d := ⌊r * 10⌋
      digitChar d.toNat :: fracDigitsAux fuel (r * 10 - d)

/-- Python `f"{val:,}"` on a non-negative float value: integer part with
thousands separators, then the fractional digits (a float always shows at
least one, as in `12,556.0`). -/
def fmtFloatPos (q : Rat) : String :=
  let ip := (⌊q⌋).toNat
  let ds := fracDigitsAux 17 (q - ⌊q⌋)
  fmtNatComma ip ++ "." ++ (if ds.isEmpty then "0" else String.mk ds)

/-- Python `f"{val:,}"` on a float value of either sign. -/
def fmtFloat (q : Rat) : String :=
  if q < 0 then "-" ++ fmtFloatPos (-q) else fmtFloatPos q

/-- Python `f"{val:,}"` on a pandas value (`f"{float('nan'):,}"` is
`"nan"`). -/
def fmtFloatOpt : Option Rat → String
  | none => "nan"
  | some q => fmtFloat q

/-- Python `f"{x:.2f}"` on a non-negative rational: two decimals, ties to
even. -/
def fmtPct2Pos (q : Rat) : String :=
  let n := (roundHalfEven (q * 100)).toNat
  toString (n / 100) ++ "." ++ String.mk [digitChar (n % 100 / 10), digitChar (n % 10)]

/-- Python `f"{x:.2f}"` on a `_safe_pct_change` result (`"inf"` and `"nan"`
for the non-finite values; a negative value keeps its sign even when the
rounded magnitude is zero, as CPython prints `-0.00`). -/
def fmtPct2 : PctVal → String
  | .fin q => if q < 0 then "-" ++ fmtPct2Pos (-q) else fmtPct2Pos q
  | .posInf => "inf"
  | .nan => "nan"

/-- Python `res["pct_change"] > 0` (`inf > 0` is True, `NaN > 0` is
False). -/
def pctPos : PctVal → Bool
  | .fin q => decide (0 < q)
  | .posInf => true
  | .nan => false

/-- Metric detection of `interpret` (core.py lines 164-170). -/
def metricOf (t : String) : Option String :=
  if pyIn "revenue" t then some "total_revenue"
  else if pyIn "net income" t || pyIn "profit" t then some "net_income"
  else none

/-- Company resolution of `interpret` (core.py lines 155-160): first exact
case-insensitive substring match over the known companies, else the
delegated fuzzy resolution `fz` (the regex extraction after "for" plus the
rapidfuzz 65-threshold match) applied to the original text.  When the exact
match yields the falsy empty string the code also falls through to fuzzy
matching. -/
def resolveCompany (fz : String → Option String) (df : DataFrame) (text t : String) :
    Option String :=
  match (companies df).find? (fun c => pyIn (pyLower c) t) with
  | some c => if c = "" then fz text else some c
  | none => fz text

/-- Guard of the total-revenue intent (core.py line 173). -/
def revenueIntent (t : String) (metric : Option String) : Bool :=
  metric == some "total_revenue" && (pyIn "total" t || pyIn "sum" t || pyIn "overall" t)

/-- Guard of the net-income-change intent (core.py line 187). -/
def incomeChangeIntent (t : String) (metric : Option String) (years : List Int) : Bool :=
  metric == some "net_income" && pyIn "change" t && decide (2 ≤ years.length)

/-- Guard of the trend intent (core.py line 203). -/
def trendIntent (t : String) : Bool :=
  pyIn "trend" t || pyIn "plot" t || pyIn "chart" t

/-- Optional `" in YYYY"` fragment of the total-revenue reply
(`' in ' + str(year) if year else ''`, again Python truthiness). -/
def yearSuffix : Option Int → String
  | some y => if y ≠ 0 then " in " ++ toString y else ""
  | none => ""

/-- The verbatim fallback help message (core.py lines 216-223). -/
def fallbackText : String :=
  "Sorry, I can answer things like:\n- \x27Total revenue for Apple in 2023\x27\n- \x27Net income change for Microsoft between 2022 and 2024\x27\n- \x27Show revenue trend for Tesla\x27"

/-- Python `metric.replace("_", " ")`. -/
def underscoresToSpaces (m : String) : String :=
  String.mk (m.data.map fun c => if c = '_' then ' ' else c)

/-- The trend reply text (core.py line 210). -/
def trendText (company m : String) : String :=
  "Here\x27s the " ++ underscoresToSpaces m ++ " trend for " ++ company ++ "."

/-- The reply dictionary of `interpret`: text, optional image path, session. -/
structure Reply where
  text : String
  image : Option String
  session : List (String × String)
deriving DecidableEq

/-- `interpret` (core.py lines 147-223).  `session = session or {}` replaces
a missing (or empty, observationally identical) session by a fresh empty
mapping; the lowercased text drives metric detection, company resolution and
the three intent guards in priority order; each branch returns a reply
carrying the session.  Exceptions raised by the metric calls (possible only
when schema columns are absent) propagate out. -/
def interpret (fz : String → Option String) (ts : Nat) (df : DataFrame)
    (text : String) (session : Option (List (String × String)) := none) :
    Except String Reply :=
  let s := match session with | none => [] | some l => l
  let t := pyLower text
  let co := resolveCompany fz df text t
  let years := parse_years text
  let metric := metricOf t
  if revenueIntent t metric then
    if truthyStr co then
      let c := co.getD ""
      let y := years.head?
      match total_revenue df c y with
      | .error e => .error e
      | .ok none => .ok ⟨"No data found.", none, s⟩
      | .ok (some v) =>
        .ok ⟨"Total revenue for " ++ c ++ yearSuffix y ++ " is $" ++ fmtMoney0 v ++ ".",
             none, s⟩
    else .ok ⟨"Which company?", none, s⟩
  else if incomeChangeIntent t metric years then
    if truthyStr co then
      let c := co.getD ""
      match net_income_change df c (years.getD 0 0) (years.getD 1 0) with
      | .error e => .error e
      | .ok none => .ok ⟨"No data for those years.", none, s⟩
      | .ok (some r) =>
        let sdir := if pctPos r.pct_change then "increased" else "decreased"
        .ok ⟨c ++ "\x27s net income " ++ sdir ++ " from $" ++ fmtFloatOpt r.val1 ++
              " in " ++ toString r.year1 ++ " to $" ++ fmtFloatOpt r.val2 ++ " in " ++
              toString r.year2 ++ " (" ++ fmtPct2 r.pct_change ++ "% change).", none, s⟩
    else .ok ⟨"Which company?", none, s⟩
  else if trendIntent t then
    if truthyStr co then
      let c := co.getD ""
      let m := metric.getD "total_revenue"
      match trend_plot df c m ts with
      | .error e => .error e
      | .ok img => .ok ⟨trendText c m, img, s⟩
    else .ok ⟨"Which company\x27s trend?", none, s⟩
  else .ok ⟨fallbackText, none, s⟩

/-- The amended C1 contract as a pure function: not-found exactly when no
rows match (under the code's truthy-year filter), else the sum of the
present total_revenue values of the matching rows. -/
def totalRevenueSpec (df : DataFrame) (company : String) (year : Option Int) : Option Rat :=
  let m := matchedRows df company year
  if m.isEmpty then none else some ((m.filterMap Row.total_revenue).sum)

/-- Boundary-before test at position `i` of a scan whose list is a suffix
preceded by a character of wordness `prevW`. -/
def bAux (l : List Char) (prevW : Bool) : Nat → Bool
  | 0 => !prevW
  | j + 1 => !isWordC (l.getD j ' ')

/-- Position-indexed token extraction: the year values at every position
where the standalone pattern matches, in positional order. -/
def auxTokens (l : List Char) (prevW : Bool) : List Int :=
  (List.range l.length).filterMap fun i =>
    if bAux l prevW i && yearAt (l.drop i) then some (yearNum (l.drop i)) else none

/-- Declarative reading of the amended C6 claim: the values of all
standalone four-digit `19xx`/`20xx` tokens (not adjacent to word
characters), in order of appearance, duplicates kept. -/
def yearTokens (s : String) : List Int := auxTokens s.data false

/-- One-character-step scanner collecting every boundary match, proof
scaffolding between `scanYearsF` and `auxTokens`. -/
def scanAll : List Char → Bool → List Int
  | [], _ => []
  | c :: rest, prevW =>
    (if !prevW && yearAt (c :: rest) then [yearNum (c :: rest)] else []) ++
      scanAll rest (isWordC c)

/-- The full normalized schema of the documented CSV. -/
def stdCols : List String := "company" :: numericCols

/-- Trivial fuzzy resolver for concrete evaluations: the regex/rapidfuzz
collaborator finds nothing. -/
def fzNone : String → Option String := fun _ => none

/-- Concrete dataset: Apple and Microsoft, year 2023, revenues 100 and 50,
net incomes 10 and 5. -/
def rowApple : Row := ⟨some "Apple", some 2023, some 100, some 10, none, none, none⟩

/-- Microsoft row of the concrete dataset. -/
def rowMicrosoft : Row := ⟨some "Microsoft", some 2023, some 50, some 5, none, none, none⟩

/-- Two-company dataset with the full schema. -/
def df5 : DataFrame := ⟨stdCols, [rowApple, rowMicrosoft]⟩

/-- Tesla 2022 row (net income 12556, revenue missing). -/
def rowTesla22 : Row := ⟨some "Tesla", some 2022, none, some 12556, none, none, none⟩

/-- Tesla 2023 row (net income 14997, revenue missing). -/
def rowTesla23 : Row := ⟨some "Tesla", some 2023, none, some 14997, none, none, none⟩

/-- Tesla dataset with the full schema. -/
def dfTesla : DataFrame := ⟨stdCols, [rowTesla22, rowTesla23]⟩

/-- Full-schema dataset whose one Apple row has every metric missing. -/
def dfBare : DataFrame :=
  ⟨stdCols, [⟨some "Apple", some 2023, none, none, none, none, none⟩]⟩

/-- Dataset loaded from a CSV that lacks the Total Revenue column: only
company and year are present, and the row fields of absent columns are
never read. -/
def dfMissing : DataFrame :=
  ⟨["company", "year"], [⟨some "Apple", some 2023, none, none, none, none, none⟩]⟩

/-- C1 counterexample input: the claim as stated demands not-found for the
query `totalRevenue("Apple", 0)` on `df5` (no row has year 0), but the
truthy-year test `if year:` drops the filter and the code sums all Apple
rows. -/
theorem c1_year_zero_counterexample :
    total_revenue df5 "Apple" (some 0) = .ok (some 100) ∧
      (∀ r ∈ df5.rows, ¬ r.year = some ((0 : Int) : Rat)) := by
  constructor
  · simp [total_revenue, matchedRows, companyRows, df5, rowApple, rowMicrosoft, stdCols,
      numericCols, matchesCompany, pyLower, lowerChar, truthyYear]
  · decide

/-- C1 (amended): for every company string and optional year, with the
schema columns present, totalRevenue never raises and equals the pure
contract: the sum of the present total_revenue values over the matching
rows — company compared case-insensitively, the year filter applied only
when the given year is truthy (nonzero) — and not-found exactly when no
rows match. -/
theorem c1_total_revenue_amended (df : DataFrame) (company : String) (year : Option Int)
    (hY : truthyYear year = true → "year" ∈ df.cols)
    (hT : "total_revenue" ∈ df.cols) :
    total_revenue df company year = .ok (totalRevenueSpec df company year) ∧
      (totalRevenueSpec df company year = none ↔ matchedRows df company year = []) := by
  constructor
  · simp only [total_revenue, totalRevenueSpec,
      if_neg (show ¬(truthyYear year = true ∧ "year" ∉ df.cols) from fun h => h.2 (hY h.1))]
    by_cases he : (matchedRows df company year).isEmpty = true
    · simp [he]
    · simp [he, hT]
  · simp only [totalRevenueSpec]
    split_ifs with h
    · simp [List.isEmpty_iff.mp h]
    · have hne : matchedRows df company year ≠ [] := fun hl => h (by simp [hl])
      simp [hne]

/-- C1 witness: the amended theorem applied to a concrete dataset and
query, with the contract evaluated. -/
theorem c1_total_revenue_witness :
    total_revenue df5 "Apple" (some 2023) = .ok (some 100) := by
  have h := (c1_total_revenue_amended df5 "Apple" (some 2023) (by decide) (by decide)).1
  rw [h]
  have hm : matchedRows df5 "Apple" (some 2023) = [rowApple] := by decide
  simp [totalRevenueSpec, hm, rowApple]

/-- C10: when at least one row matches but every matching row's
total_revenue is missing, the NaN-skipping pandas sum yields 0.0 rather
than not-found. -/
theorem c10_all_missing_sums_to_zero (df : DataFrame) (company : String) (year : Option Int)
    (hY : truthyYear year = true → "year" ∈ df.cols)
    (hT : "total_revenue" ∈ df.cols)
    (hne : matchedRows df company year ≠ [])
    (hmiss : ∀ r ∈ matchedRows df company year, r.total_revenue = none) :
    total_revenue df company year = .ok (some 0) := by
  simp only [total_revenue,
    if_neg (show ¬(truthyYear year = true ∧ "year" ∉ df.cols) from fun h => h.2 (hY h.1)),
    if_neg (show ¬(matchedRows df company year).isEmpty = true from
      fun h => hne (List.isEmpty_iff.mp h)),
    if_pos hT, List.filterMap_eq_nil_iff.mpr hmiss]
  rfl

/-- C10 witness: the one Apple row of dfBare matches and has no
total_revenue value, and the query returns 0. -/
theorem c10_all_missing_witness : total_revenue dfBare "Apple" none = .ok (some 0) :=
  c10_all_missing_sums_to_zero dfBare "Apple" none (by decide) (by decide) (by decide)
    (by decide)

/-- C2: with the schema columns present, netIncomeChange returns not-found
exactly when either year has no matching row; otherwise it returns the two
first-row net-income values together with the safe percent change: for
present values val1 = a, val2 = b, +infinity if a = 0 and b ≠ 0, zero if
a = 0 and b = 0, else (b - a) / |a| * 100. -/
theorem c2_net_income_change (df : DataFrame) (company : String) (y1 y2 : Int)
    (hY : "year" ∈ df.cols) (hN : "net_income" ∈ df.cols) :
    (net_income_change df company y1 y2 = .ok none ↔
      yearRows df company y1 = [] ∨ yearRows df company y2 = []) ∧
    (∀ r1 r2, (yearRows df company y1).head? = some r1 →
      (yearRows df company y2).head? = some r2 →
      ∀ a b : Rat, r1.net_income = some a → r2.net_income = some b →
        net_income_change df company y1 y2 = .ok (some
          { year1 := y1, year2 := y2, val1 := some a, val2 := some b,
            pct_change := if a = 0 then (if b ≠ 0 then .posInf else .fin 0)
                          else .fin ((b - a) / |a| * 100) })) := by
  simp only [net_income_change, if_neg (not_not_intro hY), if_neg (not_not_intro hN)]
  constructor
  · cases h1 : (yearRows df company y1).head? with
    | none => simp [h1, List.head?_eq_none_iff.mp h1]
    | some r1 =>
      cases h2 : (yearRows df company y2).head? with
      | none => simp [h1, h2, List.head?_eq_none_iff.mp h2]
      | some r2 =>
        have e1 : yearRows df company y1 ≠ [] := fun hl => by rw [hl] at h1; cases h1
        have e2 : yearRows df company y2 ≠ [] := fun hl => by rw [hl] at h2; cases h2
        simp [h1, h2, e1, e2]
  · intro r1 r2 h1 h2 a b ha hb
    simp only [h1, h2, ha, hb, safe_pct_change]

/-- C2 witness: the Tesla 2022 to 2023 change on concrete data. -/
theorem c2_net_income_change_witness :
    net_income_change dfTesla "Tesla" 2022 2023 = .ok (some
      { year1 := 2022, year2 := 2023, val1 := some 12556, val2 := some 14997,
        pct_change := if (12556 : Rat) = 0
                      then (if (14997 : Rat) ≠ 0 then .posInf else .fin 0)
                      else .fin (((14997 : Rat) - 12556) / |(12556 : Rat)| * 100) }) :=
  (c2_net_income_change dfTesla "Tesla" 2022 2023 (by decide) (by decide)).2
    rowTesla22 rowTesla23 (by decide) (by decide) 12556 14997 rfl rfl

/-- C5 counterexample inputs: with year 0 the claim demands not-found (no
row of df5 has year 0) but the truthy-year test drops the filter and the
comparison succeeds; with the uppercase metric "TOTAL_REVENUE" — outside
the claim's set {total_revenue, net_income} as stated — the code lowercases
and also succeeds. -/
theorem c5_compare_counterexample :
    compare_companies df5 "Apple" "Microsoft" "total_revenue" (some 0) ≠ .ok none ∧
      (∀ r ∈ df5.rows, ¬ r.year = some ((0 : Int) : Rat)) ∧
      compare_companies df5 "Apple" "Microsoft" "TOTAL_REVENUE" none ≠ .ok none ∧
      ¬("TOTAL_REVENUE" = "total_revenue" ∨ "TOTAL_REVENUE" = "net_income") := by
  refine ⟨by decide, by decide, by decide, by decide⟩

/-- C5 (amended): compareCompanies lowercases the metric first and filters
by year only when the year is truthy; with the relevant columns present it
never raises, returns not-found exactly when the lowercased metric is
outside {total_revenue, net_income} or either company has no matching row,
and otherwise takes the first matching row per company, with
diff = aVal - bVal (NaN-propagating) and pctDiff the safe percent change of
aVal against baseline bVal. -/
theorem c5_compare_amended (df : DataFrame) (a b metric : String) (year : Option Int)
    (hY : truthyYear year = true → "year" ∈ df.cols)
    (hM : pyLower metric = "total_revenue" ∨ pyLower metric = "net_income" →
      pyLower metric ∈ df.cols) :
    ∃ res, compare_companies df a b metric year = .ok res ∧
      (res = none ↔
        ¬(pyLower metric = "total_revenue" ∨ pyLower metric = "net_income") ∨
        matchedRows df a year = [] ∨ matchedRows df b year = []) ∧
      (∀ r, res = some r →
        ∃ ra rb, (matchedRows df a year).head? = some ra ∧
          (matchedRows df b year).head? = some rb ∧
          r.a_val = ra.getNum (pyLower metric) ∧ r.b_val = rb.getNum (pyLower metric) ∧
          r.diff = pySub r.a_val r.b_val ∧
          r.pct_diff = safe_pct_change r.b_val r.a_val) := by
  simp only [compare_companies]
  by_cases hm : pyLower metric = "total_revenue" ∨ pyLower metric = "net_income"
  · rw [if_pos hm, if_neg (fun h => h.2 (hY h.1))]
    cases h1 : (matchedRows df a year).head? with
    | none =>
      cases h2 : (matchedRows df b year).head? <;>
        exact ⟨none, by simp [h1, h2], by simp [List.head?_eq_none_iff.mp h1],
          by rintro r ⟨⟩⟩
    | some ra =>
      cases h2 : (matchedRows df b year).head? with
      | none =>
        exact ⟨none, by simp [h1, h2], by simp [List.head?_eq_none_iff.mp h2],
          by rintro r ⟨⟩⟩
      | some rb =>
        refine ⟨some
          { company_a := a, company_b := b, metric := pyLower metric, year := year,
            a_val := ra.getNum (pyLower metric), b_val := rb.getNum (pyLower metric),
            diff := pySub (ra.getNum (pyLower metric)) (rb.getNum (pyLower metric)),
            pct_diff := safe_pct_change (rb.getNum (pyLower metric))
              (ra.getNum (pyLower metric)) },
          by simp [h1, h2, if_pos (hM hm)], ?_, ?_⟩
        · have ha : matchedRows df a year ≠ [] := fun hl => by
            rw [hl] at h1; cases h1
          have hb : matchedRows df b year ≠ [] := fun hl => by
            rw [hl] at h2; cases h2
          simp [hm, ha, hb]
        · intro r hr
          cases hr
          exact ⟨ra, rb, rfl, rfl, rfl, rfl, rfl, rfl⟩
  · rw [if_neg hm]
    exact ⟨none, rfl, by simp [hm], by rintro r ⟨⟩⟩

/-- C5 witness: the amended theorem at a concrete comparison with a
mixed-case metric and a truthy year. -/
theorem c5_compare_witness :
    ∃ res, compare_companies df5 "Apple" "Microsoft" "Total_Revenue" (some 2023) = .ok res ∧
      (res = none ↔
        ¬(pyLower "Total_Revenue" = "total_revenue" ∨
          pyLower "Total_Revenue" = "net_income") ∨
        matchedRows df5 "Apple" (some 2023) = [] ∨
        matchedRows df5 "Microsoft" (some 2023) = []) ∧
      (∀ r, res = some r →
        ∃ ra rb, (matchedRows df5 "Apple" (some 2023)).head? = some ra ∧
          (matchedRows df5 "Microsoft" (some 2023)).head? = some rb ∧
          r.a_val = ra.getNum (pyLower "Total_Revenue") ∧
          r.b_val = rb.getNum (pyLower "Total_Revenue") ∧
          r.diff = pySub r.a_val r.b_val ∧
          r.pct_diff = safe_pct_change r.b_val r.a_val) :=
  c5_compare_amended df5 "Apple" "Microsoft" "Total_Revenue" (some 2023) (by decide)
    (by decide)

/-- C8: on a dataset whose CSV lacks the Total Revenue column, the very
first matching total-revenue query raises KeyError out of `total_revenue`
and out of `interpret` — the code does not degrade the metric to not-found
and returns no textual reply, contradicting the claimed graceful
degradation (which `__init__` and `trend_plot` do implement). -/
theorem c8_missing_column_raises :
    total_revenue dfMissing "Apple" none = .error "KeyError" ∧
      interpret fzNone 0 dfMissing "total revenue for apple" (some []) =
        .error "KeyError" :=
  ⟨by decide, by decide⟩

/-- C3: with the year column present and the metric either a declared
numeric column or not a column at all, the trend series never raises,
returns not-found exactly when the metric is unknown or no rows survive
the company and dropna filters, and otherwise is a permutation of exactly
those surviving (year, value) points, ordered non-decreasing by year. -/
theorem c3_trend_series (df : DataFrame) (company metric : String)
    (hY : "year" ∈ df.cols)
    (_hnum : pyLower metric ∈ numericCols ∨ pyLower metric ∉ df.cols) :
    ∃ res, trend_series df company metric = .ok res ∧
      (res = none ↔ pyLower metric ∉ df.cols ∨
        trend_pairs df company (pyLower metric) = []) ∧
      (∀ l, res = some l →
        List.Perm l (trend_pairs df company (pyLower metric)) ∧ l.Pairwise yearLe) := by
  simp only [trend_series]
  by_cases hm : pyLower metric ∈ df.cols
  · rw [if_pos hm, if_neg (not_not_intro hY)]
    have hperm := List.perm_insertionSort yearLe (trend_pairs df company (pyLower metric))
    by_cases he :
        (List.insertionSort yearLe (trend_pairs df company (pyLower metric))).isEmpty = true
    · refine ⟨none, by rw [if_pos he], ?_, by rintro l ⟨⟩⟩
      have hnil : trend_pairs df company (pyLower metric) = [] := by
        have := List.isEmpty_iff.mp he ▸ hperm
        exact this.symm.eq_nil
      simp [hnil]
    · refine ⟨some (List.insertionSort yearLe (trend_pairs df company (pyLower metric))),
        by rw [if_neg he], ?_, ?_⟩
      · have hne : trend_pairs df company (pyLower metric) ≠ [] := by
          intro hnil
          exact he (by simp [hnil])
        simp [hm, hne]
      · intro l hl
        cases hl
        exact ⟨hperm, List.sorted_insertionSort yearLe _⟩
  · rw [if_neg hm]
    exact ⟨none, rfl, by simp [hm], by rintro l ⟨⟩⟩

/-- C3 witness: the theorem applied to a concrete dataset and metric. -/
theorem c3_trend_series_witness :
    ∃ res, trend_series df5 "Apple" "total_revenue" = .ok res ∧
      (res = none ↔ pyLower "total_revenue" ∉ df5.cols ∨
        trend_pairs df5 "Apple" (pyLower "total_revenue") = []) ∧
      (∀ l, res = some l →
        List.Perm l (trend_pairs df5 "Apple" (pyLower "total_revenue")) ∧
          l.Pairwise yearLe) :=
  c3_trend_series df5 "Apple" "total_revenue" (by decide) (by decide)

/-- C4 counterexample input: on dfBare the Apple trend series is not-found
(the only row has no total_revenue value), yet `interpret "apple trend"`
returns the success-phrased trend reply rather than any not-found
message. -/
theorem c4_trend_not_found_counterexample :
    trend_series dfBare "Apple" "total_revenue" = .ok none ∧
      interpret fzNone 0 dfBare "apple trend" (some []) =
        .ok ⟨"Here\x27s the total revenue trend for Apple.", none, []⟩ :=
  ⟨by decide, by decide⟩

/-- C4 (amended): when the trend intent fires with a resolved company and
the trend series is not-found, interpret returns the standard descriptive
trend reply with the image absent — there is no dedicated not-found
message on this path. -/
theorem c4_trend_reply_amended (fz : String → Option String) (ts : Nat) (df : DataFrame)
    (text : String) (s : List (String × String)) (c : String)
    (h1 : revenueIntent (pyLower text) (metricOf (pyLower text)) = false)
    (h2 : incomeChangeIntent (pyLower text) (metricOf (pyLower text)) (parse_years text)
      = false)
    (h3 : trendIntent (pyLower text) = true)
    (hc : resolveCompany fz df text (pyLower text) = some c)
    (hc2 : c ≠ "")
    (hser : trend_series df c ((metricOf (pyLower text)).getD "total_revenue") = .ok none) :
    interpret fz ts df text (some s) =
      .ok ⟨trendText c ((metricOf (pyLower text)).getD "total_revenue"), none, s⟩ := by
  simp only [interpret, h1, h2, h3, hc]
  simp [truthyStr, hc2, trend_plot, hser, Except.map]

/-- C4 witness: the amended theorem at a concrete dataset and input
text. -/
theorem c4_trend_reply_witness :
    interpret fzNone 0 dfBare "apple chart" (some [("k", "v")]) =
      .ok ⟨trendText "Apple" ((metricOf (pyLower "apple chart")).getD "total_revenue"),
        none, [("k", "v")]⟩ :=
  c4_trend_reply_amended fzNone 0 dfBare "apple chart" [("k", "v")] "Apple" (by decide)
    (by decide) (by decide) (by decide) (by decide) (by decide)

/-- C7: whenever none of the three intent guards fires, interpret returns
the verbatim fallback help message with no image and the session carried
through. -/
theorem c7_fallback (fz : String → Option String) (ts : Nat) (df : DataFrame)
    (text : String) (s : List (String × String))
    (h1 : revenueIntent (pyLower text) (metricOf (pyLower text)) = false)
    (h2 : incomeChangeIntent (pyLower text) (metricOf (pyLower text)) (parse_years text)
      = false)
    (h3 : trendIntent (pyLower text) = false) :
    interpret fz ts df text (some s) = .ok ⟨fallbackText, none, s⟩ := by
  simp [interpret, h1, h2, h3]

/-- C7 witness: `interpret "banana"` hits the fallback with the exact help
text. -/
theorem c7_fallback_witness :
    interpret fzNone 0 dfBare "banana" (some [("a", "b")]) =
      .ok ⟨fallbackText, none, [("a", "b")]⟩ :=
  c7_fallback fzNone 0 dfBare "banana" [("a", "b")] (by decide) (by decide) (by decide)

/-- With the schema columns present, total_revenue never raises. -/
theorem total_revenue_ok (df : DataFrame) (company : String) (year : Option Int)
    (hY : "year" ∈ df.cols) (hT : "total_revenue" ∈ df.cols) :
    ∃ v, total_revenue df company year = .ok v := by
  simp only [total_revenue, if_neg (show ¬(truthyYear year = true ∧ "year" ∉ df.cols)
    from fun h => h.2 hY)]
  split_ifs <;> exact ⟨_, rfl⟩

/-- With the schema columns present, net_income_change never raises. -/
theorem net_income_change_ok (df : DataFrame) (company : String) (y1 y2 : Int)
    (hY : "year" ∈ df.cols) (hN : "net_income" ∈ df.cols) :
    ∃ v, net_income_change df company y1 y2 = .ok v := by
  simp only [net_income_change, if_neg (not_not_intro hY), if_neg (not_not_intro hN)]
  cases (yearRows df company y1).head? <;> cases (yearRows df company y2).head? <;>
    exact ⟨_, rfl⟩

/-- With the year column present, trend_plot never raises. -/
theorem trend_plot_ok (df : DataFrame) (company metric : String) (ts : Nat)
    (hY : "year" ∈ df.cols) :
    ∃ v, trend_plot df company metric ts = .ok v := by
  simp only [trend_plot, trend_series]
  by_cases hm : pyLower metric ∈ df.cols
  · rw [if_pos hm, if_neg (not_not_intro hY)]
    exact ⟨_, rfl⟩
  · rw [if_neg hm]
    exact ⟨_, rfl⟩

/-- With the schema columns present, interpret produces, for any two
sessions, the same reply text and image, each reply carrying its own
session. -/
theorem interpret_pair (fz : String → Option String) (ts : Nat) (df : DataFrame)
    (text : String)
    (hY : "year" ∈ df.cols) (hT : "total_revenue" ∈ df.cols) (hN : "net_income" ∈ df.cols)
    (s s2 : List (String × String)) :
    ∃ txt img, interpret fz ts df text (some s) = .ok ⟨txt, img, s⟩ ∧
      interpret fz ts df text (some s2) = .ok ⟨txt, img, s2⟩ := by
  simp only [interpret]
  by_cases hg1 : revenueIntent (pyLower text) (metricOf (pyLower text)) = true
  · simp only [if_pos hg1]
    by_cases hco : truthyStr (resolveCompany fz df text (pyLower text)) = true
    · simp only [if_pos hco]
      obtain ⟨v, hv⟩ := total_revenue_ok df
        ((resolveCompany fz df text (pyLower text)).getD "") (parse_years text).head? hY hT
      simp only [hv]
      cases v <;> exact ⟨_, _, rfl, rfl⟩
    · simp only [if_neg hco]
      exact ⟨_, _, rfl, rfl⟩
  · simp only [if_neg hg1]
    by_cases hg2 : incomeChangeIntent (pyLower text) (metricOf (pyLower text))
        (parse_years text) = true
    · simp only [if_pos hg2]
      by_cases hco : truthyStr (resolveCompany fz df text (pyLower text)) = true
      · simp only [if_pos hco]
        obtain ⟨v, hv⟩ := net_income_change_ok df
          ((resolveCompany fz df text (pyLower text)).getD "")
          ((parse_years text).getD 0 0) ((parse_years text).getD 1 0) hY hN
        simp only [hv]
        cases v <;> exact ⟨_, _, rfl, rfl⟩
      · simp only [if_neg hco]
        exact ⟨_, _, rfl, rfl⟩
    · simp only [if_neg hg2]
      by_cases hg3 : trendIntent (pyLower text) = true
      · simp only [if_pos hg3]
        by_cases hco : truthyStr (resolveCompany fz df text (pyLower text)) = true
        · simp only [if_pos hco]
          obtain ⟨v, hv⟩ := trend_plot_ok df
            ((resolveCompany fz df text (pyLower text)).getD "")
            ((metricOf (pyLower text)).getD "total_revenue") ts hY
          simp only [hv]
          exact ⟨_, _, rfl, rfl⟩
        · simp only [if_neg hco]
          exact ⟨_, _, rfl, rfl⟩
      · simp only [if_neg hg3]
        exact ⟨_, _, rfl, rfl⟩

/-- C9: with the schema columns present, the session field of interpret's
result equals the session mapping passed in, and the reply's text and image
do not depend on the session contents. -/
theorem c9_session_passthrough (fz : String → Option String) (ts : Nat) (df : DataFrame)
    (text : String) (s s2 : List (String × String))
    (hY : "year" ∈ df.cols) (hT : "total_revenue" ∈ df.cols) (hN : "net_income" ∈ df.cols) :
    (interpret fz ts df text (some s)).map Reply.session = .ok s ∧
      (interpret fz ts df text (some s)).map (fun r => (r.text, r.image)) =
        (interpret fz ts df text (some s2)).map (fun r => (r.text, r.image)) := by
  obtain ⟨txt, img, h1, h2⟩ := interpret_pair fz ts df text hY hT hN s s2
  rw [h1, h2]
  exact ⟨rfl, rfl⟩

/-- C9 witness: the theorem at a concrete dataset, input and session
pair. -/
theorem c9_session_witness :
    (interpret fzNone 0 dfBare "banana" (some [("x", "1")])).map Reply.session =
        .ok [("x", "1")] ∧
      (interpret fzNone 0 dfBare "banana" (some [("x", "1")])).map
          (fun r => (r.text, r.image)) =
        (interpret fzNone 0 dfBare "banana" (some [])).map (fun r => (r.text, r.image)) :=
  c9_session_passthrough fzNone 0 dfBare "banana" [("x", "1")] [] (by decide) (by decide)
    (by decide)

/-- The boundary flag of a one-step-longer scan agrees with the tail scan's
flag at every later position. -/
theorem bAux_cons (c : Char) (rest : List Char) (w : Bool) (j : Nat) :
    bAux (c :: rest) w (j + 1) = bAux rest (isWordC c) j := by
  cases j with
  | zero => rfl
  | succ k => rfl

/-- Cons unfolding of the position-indexed token extraction. -/
theorem auxTokens_cons (c : Char) (rest : List Char) (w : Bool) :
    auxTokens (c :: rest) w =
      (if !w && yearAt (c :: rest) then [yearNum (c :: rest)] else []) ++
        auxTokens rest (isWordC c) := by
  unfold auxTokens
  rw [List.length_cons, List.range_succ_eq_map, List.filterMap_cons, List.filterMap_map]
  have htail :
      (List.range rest.length).filterMap
        ((fun i =>
          if bAux (c :: rest) w i && yearAt ((c :: rest).drop i) then
            some (yearNum ((c :: rest).drop i))
          else none) ∘ Nat.succ) =
      (List.range rest.length).filterMap
        (fun j =>
          if bAux rest (isWordC c) j && yearAt (rest.drop j) then
            some (yearNum (rest.drop j))
          else none) := by
    refine List.filterMap_congr fun j _ => ?_
    simp only [Function.comp_apply, bAux_cons, List.drop_succ_cons]
  rw [htail]
  cases hcond : (!w && yearAt (c :: rest)) with
  | false => simp [bAux, hcond]
  | true => simp [bAux, hcond]

/-- The one-step scanner computes the position-indexed tokens. -/
theorem scanAll_eq_auxTokens (l : List Char) : ∀ w, scanAll l w = auxTokens l w := by
  induction l with
  | nil => intro w; rfl
  | cons c rest ih =>
    intro w
    rw [auxTokens_cons, ← ih]
    simp only [scanAll]

/-- A digit is a word character. -/
theorem isWordC_of_isDigit {c : Char} (h : c.isDigit = true) : isWordC c = true := by
  simp [isWordC, Char.isAlphanum, h]

/-- A successful year match at the head forces four digit characters. -/
theorem yearAt_shape {c : Char} {rest : List Char} (h : yearAt (c :: rest) = true) :
    ∃ c1 c2 c3 rest4, rest = c1 :: c2 :: c3 :: rest4 ∧
      c.isDigit = true ∧ c1.isDigit = true ∧ c2.isDigit = true ∧ c3.isDigit = true := by
  rcases rest with _ | ⟨c1, _ | ⟨c2, _ | ⟨c3, rest4⟩⟩⟩
  · simp [yearAt, yearDigits] at h
  · simp [yearAt, yearDigits] at h
  · simp [yearAt, yearDigits] at h
  · have hd : yearDigits (c :: c1 :: c2 :: c3 :: rest4) = true := by
      have h' := h
      simp only [yearAt, Bool.and_eq_true] at h'
      exact h'.1
    simp only [yearDigits, Bool.and_eq_true, Bool.or_eq_true, beq_iff_eq] at hd
    obtain ⟨⟨hor, h2⟩, h3⟩ := hd
    rcases hor with ⟨rfl, rfl⟩ | ⟨rfl, rfl⟩ <;>
      exact ⟨_, _, _, rest4, rfl, by decide, by decide, h2, h3⟩

/-- The fueled findall scanner agrees with the one-step scanner whenever the
fuel covers the list: after a match the skipped three characters are digits,
hence word characters on whose positions the one-step scanner finds no
boundary match. -/
theorem scanYearsF_eq_scanAll :
    ∀ (fuel : Nat) (l : List Char) (w : Bool), l.length ≤ fuel →
      scanYearsF fuel l w = scanAll l w := by
  intro fuel
  induction fuel with
  | zero =>
    intro l w h
    obtain rfl : l = [] := List.length_eq_zero.mp (Nat.le_zero.mp h)
    rfl
  | succ fuel ih =>
    intro l w h
    cases l with
    | nil => rfl
    | cons c rest =>
      simp only [scanYearsF]
      cases hcond : (!w && yearAt (c :: rest)) with
      | false =>
        rw [if_neg (by simp [hcond])]
        rw [ih rest (isWordC c) (by simp only [List.length_cons] at h; omega)]
        simp only [scanAll, hcond]
        simp
      | true =>
        have hy : yearAt (c :: rest) = true := by
          have h' := hcond
          simp only [Bool.and_eq_true] at h'
          exact h'.2
        obtain ⟨c1, c2, c3, rest4, rfl, hd0, hd1, hd2, hd3⟩ := yearAt_shape hy
        rw [if_pos (by simp [hcond])]
        have hlen : rest4.length ≤ fuel := by
          simp only [List.length_cons] at h; omega
        have hw0 := isWordC_of_isDigit hd0
        have hw1 := isWordC_of_isDigit hd1
        have hw2 := isWordC_of_isDigit hd2
        have hw3 := isWordC_of_isDigit hd3
        simp only [List.drop_succ_cons, List.drop_zero]
        rw [ih rest4 true hlen]
        simp only [scanAll, hcond, hw0, hw1, hw2, hw3, Bool.not_true, Bool.false_and,
          Bool.false_eq_true, if_false, if_true, List.nil_append, List.cons_append,
          List.append_nil]

/-- C6 (amended): year extraction returns exactly the standalone four-digit
19xx/20xx tokens — those not adjacent to a word character on either side,
per the regex word boundaries — as integers in order of appearance with
duplicates kept; on "between 2022 and 2024" it yields [2022, 2024] in that
order. -/
theorem c6_parse_years_amended :
    (∀ s : String, parse_years s = yearTokens s) ∧
      parse_years "between 2022 and 2024" = [2022, 2024] := by
  refine ⟨fun s => ?_, by decide⟩
  rw [parse_years, yearTokens,
    scanYearsF_eq_scanAll s.data.length s.data false le_rfl, scanAll_eq_auxTokens]

/-- C6 counterexample input: "20231" contains the four-digit substring
"2023" matching the 19xx/20xx pattern, yet year extraction returns nothing,
because the trailing regex word boundary rejects the adjacent digit. -/
theorem c6_parse_years_counterexample :
    parse_years "20231" = [] ∧ yearDigits "2023".data = true ∧
      List.IsInfix "2023".data "20231".data :=
  ⟨by decide, by decide, ⟨[], ['1'], by decide⟩⟩
